import Mathlib

/-!
Verification of the tesis repository against its specification.

Part 1 embeds the Express routes of `src/server/routes/routes.js`
(the ML demo endpoints) as Lean functions; JavaScript numbers are
modelled as rationals (`ℚ`), `Math.floor` as `Int.floor`, strings as
`List Char`.

Part 2 models the session / authentication / authorization core from
the spec: the code of that subsystem is not among the repository's
source files (only its documentation is), so the definitions there are
marked `Modelled from the spec:`.
-/

namespace Tesis

/-! ## Part 1: the ML demo routes of `routes.js` -/

/-- JS `Number.prototype.toFixed(6)`, read back as a rational: the integer
`n` minimizing `|n / 10^6 - q|`, ties toward the larger `n` (half-up). -/
def jsToFixed6 (q : ℚ) : ℚ :=
  ((Int.floor (q * 1000000 + 1/2) : ℤ) : ℚ) / 1000000

/-- JS `parseInt` applied to a number: truncation toward zero. -/
def jsParseIntQ (q : ℚ) : ℤ :=
  if q < 0 then Int.ceil q else Int.floor q

/-- One record of `GET /modelo/datos-ejemplo` (routes.js lines 150-157). -/
structure EjemploRecord where
  latitud : ℚ
  longitud : ℚ
  hora : ℤ
  dia_semana : ℤ
  mes : ℤ
  tipo_delito : ℤ
deriving DecidableEq

/-- The i-th generated record: `rnd` is the stream of `Math.random()`
draws, each in `[0, 1)`; record `i` consumes draws `6*i .. 6*i+5`. -/
def genEjemplo (rnd : Nat → ℚ) (i : Nat) : EjemploRecord where
  latitud := jsToFixed6 (rnd (6*i) * (2/10) - 27/2)
  longitud := jsToFixed6 (rnd (6*i+1) * (1/10) - 72)
  hora := Int.floor (rnd (6*i+2) * 24)
  dia_semana := Int.floor (rnd (6*i+3) * 7)
  mes := Int.floor (rnd (6*i+4) * 12) + 1
  tipo_delito := Int.floor (rnd (6*i+5) * 5)

/-- `parseInt(req.query.n) || 10`: `none` stands for the `NaN` result of
`parseInt` (query absent or not numeric), which `||` turns into 10, as it
does the value `0`. -/
def effectiveN : Option ℤ → ℤ
  | none => 10
  | some k => if k = 0 then 10 else k

/-- Response body of `GET /modelo/datos-ejemplo` (routes.js lines 160-163). -/
structure DatosResponse where
  cantidad : Nat
  datos : List EjemploRecord

/-- The `GET /modelo/datos-ejemplo` handler (routes.js lines 145-164):
builds `n` random records and replies `{cantidad: datos.length, datos}`. -/
def datosEjemplo (rnd : Nat → ℚ) (nq : Option ℤ) : DatosResponse :=
  let n := effectiveN nq
  let datos := (List.range n.toNat).map (genEjemplo rnd)
  { cantidad := datos.length, datos := datos }

/-- Request body of `POST /modelo/prediccion` as destructured at
routes.js line 52: a field is `none` when `undefined`. -/
structure PrediccionBody where
  latitud : Option ℚ
  longitud : Option ℚ
  hora : Option ℚ
  dia_semana : Option ℚ
  mes : Option ℚ
  tipo_delito : Option ℚ

/-- `inputData` built at routes.js lines 76-83 (`parseFloat` on a number
is the identity, `parseInt` truncates toward zero). -/
structure InputData where
  latitud : ℚ
  longitud : ℚ
  hora : ℤ
  dia_semana : ℤ
  mes : ℤ
  tipo_delito : ℤ
deriving DecidableEq

/-- What the `POST /modelo/prediccion` handler does before any reply from
the Python process: reject with 400, reject with 404, or spawn the
prediction process on `inputData`. -/
inductive PrediccionStep
  | status400 (requeridos : List String)
  | status404
  | spawned (input : InputData)
deriving DecidableEq

/-- The required-field list of the 400 reply (routes.js line 59). -/
def camposRequeridos : List String :=
  ["latitud", "longitud", "hora", "dia_semana", "mes", "tipo_delito"]

/-- The `POST /modelo/prediccion` handler up to the spawn (routes.js
lines 50-93): field presence is validated first (400), then the
existence of `model.pkl` (404), and only then is the process spawned. -/
def prediccionHandler (b : PrediccionBody) (modelExists : Bool) : PrediccionStep :=
  match b.latitud, b.longitud, b.hora, b.dia_semana, b.mes, b.tipo_delito with
  | some la, some lo, some h, some d, some m, some t =>
    if modelExists then
      .spawned ⟨la, lo, jsParseIntQ h, jsParseIntQ d, jsParseIntQ m, jsParseIntQ t⟩
    else .status404
  | _, _, _, _, _, _ => .status400 camposRequeridos

/-- Modelled from the spec: the reply of the prediction demo service,
whose Python side (`train_model.py`) is not among the repository's
source files; the spec fixes the schema `... -> \x7brisk_level\x7d`. -/
structure PrediccionServiceResponse where
  risk_level : ℤ
deriving DecidableEq

/-- Outcome of a whole `POST /modelo/prediccion` round trip. -/
inductive PrediccionOutcome
  | badRequest (requeridos : List String)
  | modelMissing
  | ok (resp : PrediccionServiceResponse)
deriving DecidableEq

/-- The full `POST /modelo/prediccion` route: the spawned process is the
opaque external service `service`, whose parsed JSON reply is forwarded
as the response body (routes.js lines 106-123). -/
def prediccionRoute (b : PrediccionBody) (modelExists : Bool)
    (service : InputData → PrediccionServiceResponse) : PrediccionOutcome :=
  match prediccionHandler b modelExists with
  | .status400 req => .badRequest req
  | .status404 => .modelMissing
  | .spawned inp => .ok (service inp)

/-! ### `POST /modelo/entrenar` (routes.js lines 19-47) -/

/-- `pat` is a prefix of `s` (character lists). -/
def beginsWith : List Char → List Char → Bool
  | [], _ => true
  | _ :: _, [] => false
  | a :: as, b :: bs => a == b && beginsWith as bs

/-- `needle` occurs somewhere in `hay`: JS `String.prototype.includes`. -/
def hasSub (hay needle : List Char) : Bool :=
  match hay with
  | [] => beginsWith needle []
  | _ :: t => beginsWith needle hay || hasSub t needle

/-- A character matched by the regex class `[\d.]`. -/
def isDigitDot (c : Char) : Bool := c.isDigit || c == '.'

/-- The literal part of the regex at routes.js line 33,
`Precisión del modelo: `, as its character list. -/
def litAccuracy : List Char :=
  ['P', 'r', 'e', 'c', 'i', 's', 'i', 'ó', 'n', ' ',
   'd', 'e', 'l', ' ', 'm', 'o', 'd', 'e', 'l', 'o', ':', ' ']

/-- The word `Precisión` tested against stderr at routes.js line 28. -/
def precWord : List Char :=
  ['P', 'r', 'e', 'c', 'i', 's', 'i', 'ó', 'n']

/-- Try the regex `Precisión del modelo: ([\d.]+)%` anchored at the head
of `s`; `some cap` is the captured group. Backtracking inside `[\d.]+`
cannot help: any shorter run is followed by a digit or dot, never `%`,
so the match at a position succeeds exactly when the maximal run is
nonempty and followed by `%`. -/
def matchCaptureAt (s : List Char) : Option (List Char) :=
  if beginsWith litAccuracy s then
    if (s.drop litAccuracy.length).takeWhile isDigitDot ≠ [] ∧
        ((s.drop litAccuracy.length).dropWhile isDigitDot).head? = some '%' then
      some ((s.drop litAccuracy.length).takeWhile isDigitDot)
    else none
  else none

/-- `stdout.match(/Precisión del modelo: ([\d.]+)%/)`: the capture of the
leftmost match, scanning positions left to right. -/
def accuracyCapture : List Char → Option (List Char)
  | [] => none
  | c :: cs =>
    match matchCaptureAt (c :: cs) with
    | some r => some r
    | none => accuracyCapture cs

/-- Numeric value of a digit string. -/
def digitsToNat (ds : List Char) : Nat :=
  ds.foldl (fun a c => 10 * a + (c.toNat - 48)) 0

/-- JS `parseFloat` on the capture domain `[\d.]+`: integer digits, an
optional dot with fraction digits, anything after a second dot ignored;
`none` is the `NaN` of a capture with no digit before the part read. -/
def jsParseFloat (s : List Char) : Option ℚ :=
  let ip := s.takeWhile Char.isDigit
  let rest := s.dropWhile Char.isDigit
  match rest with
  | '.' :: rest2 =>
    let fp := rest2.takeWhile Char.isDigit
    if ip.isEmpty && fp.isEmpty then none
    else some ((digitsToNat ip : ℚ) + (digitsToNat fp : ℚ) / 10 ^ fp.length)
  | _ => if ip.isEmpty then none else some (digitsToNat ip : ℚ)

/-- Response of `POST /modelo/entrenar`: the 500 branch of line 29, or
the 200 body of lines 36-40 (`precision` is `none` when the regex did
not match; `some none` is the `NaN` of `parseFloat` on a digitless
capture, serialized as `null` too). -/
inductive EntrenarOutcome
  | errStderr (error : List Char)
  | trained (precision : Option (Option ℚ)) (output : List Char)
deriving DecidableEq

/-- The `POST /modelo/entrenar` handler (routes.js lines 19-47) given the
subprocess output. -/
def entrenarRoute (stdout stderr : List Char) : EntrenarOutcome :=
  if stderr ≠ [] ∧ hasSub stderr precWord = false then .errStderr stderr
  else .trained ((accuracyCapture stdout).map jsParseFloat) stdout

/-- The regex matches at position `i` of `s` with capture `cap` (the
declarative reading of `matchCaptureAt (s.drop i)`). -/
def accuracyMatchAt (s : List Char) (i : Nat) (cap : List Char) : Prop :=
  beginsWith litAccuracy (s.drop i) = true ∧
  cap = (s.drop (i + litAccuracy.length)).takeWhile isDigitDot ∧
  cap ≠ [] ∧
  ((s.drop (i + litAccuracy.length)).dropWhile isDigitDot).head? = some '%'

/-! ## Part 2: session, authentication and authorization core

The code of this subsystem is not among the repository's source files;
only its documentation is (`BACKEND_QUICK_REFERENCE.md` and the backend
architecture document). Every definition below is modelled from the
spec's words and marked so. Opaque refresh-token values are modelled as
naturals. -/

/-- Error kinds of the Refresh Ledger (spec section 7). -/
inductive LedgerError
  | TokenNotFound
  | RotationLimitExceeded
  | SessionExpired
deriving DecidableEq

/-- Modelled from the spec: the configuration limits loaded once and
passed to constructors (spec section 9, design note 2). -/
structure LedgerConfig where
  MAX_REFRESH_COUNT : Nat
  JWT_SESSION_MAX_AGE : Nat
deriving DecidableEq

/-- Modelled from the spec: the `RefreshSession` row of the data model
(spec section 3). -/
structure RefreshSession where
  token : Nat
  user_id : Nat
  rotation_count : Nat
  session_start : Nat
  revoked : Bool
deriving DecidableEq

/-- The Refresh Ledger's stored state: its rows. -/
abbrev Ledger := List RefreshSession

/-- Point lookup of a row by stored token value. -/
def findSession (st : Ledger) (t : Nat) : Option RefreshSession :=
  st.find? (fun s => s.token == t)

/-- Modelled from the spec: `find_active(token) -> RefreshSession|None`
(spec section 4.2): absent or revoked rows do not validate. -/
def find_active (st : Ledger) (t : Nat) : Option RefreshSession :=
  match findSession st t with
  | some s => if s.revoked then none else some s
  | none => none

/-- Modelled from the spec: `create(user_id) -> RefreshSession` with
`rotation_count = 0`, `session_start = now` (spec section 4.2); `tok` is
the freshly minted opaque value. -/
def ledgerCreate (st : Ledger) (uid tok now : Nat) : RefreshSession × Ledger :=
  (⟨tok, uid, 0, now, false⟩, ⟨tok, uid, 0, now, false⟩ :: st)

/-- Mark the row holding token value `t` revoked. -/
def revokeTok (st : Ledger) (t : Nat) : Ledger :=
  st.map fun s => if s.token == t then { s with revoked := true } else s

/-- Modelled from the spec: `revoke(token)`; revoking an already-revoked
or unknown token is not an error, it returns success (spec section 4.3). -/
def ledgerRevoke (st : Ledger) (t : Nat) : Bool × Ledger :=
  (true, revokeTok st t)

/-- Replace the row keyed by old token value `t` with `s'` (the single
conditional update of the rotation algorithm). -/
def replaceTok (st : Ledger) (t : Nat) (s' : RefreshSession) : Ledger :=
  st.map fun s => if s.token == t then s' else s

/-- Modelled from the spec: the rotation algorithm of section 4.2 — look
up the old value (`TokenNotFound` if absent or revoked); revoke and fail
with `RotationLimitExceeded` when `rotation_count + 1 > MAX_REFRESH_COUNT`;
revoke and fail with `SessionExpired` when
`now - session_start > JWT_SESSION_MAX_AGE`; otherwise atomically store
the fresh value `newTok` with the count incremented. -/
def rotate (cfg : LedgerConfig) (st : Ledger) (old newTok now : Nat) :
    Except LedgerError RefreshSession × Ledger :=
  match findSession st old with
  | none => (.error .TokenNotFound, st)
  | some s =>
    if s.revoked then (.error .TokenNotFound, st)
    else if cfg.MAX_REFRESH_COUNT < s.rotation_count + 1 then
      (.error .RotationLimitExceeded, revokeTok st old)
    else if cfg.JWT_SESSION_MAX_AGE < now - s.session_start then
      (.error .SessionExpired, revokeTok st old)
    else
      (.ok { s with token := newTok, rotation_count := s.rotation_count + 1 },
       replaceTok st old { s with token := newTok, rotation_count := s.rotation_count + 1 })

/-- The single-lineage rotation trace: token value in play after `k`
successful rotations, `t0` being the value minted at login and `toks k`
the fresh value consumed by the `(k+1)`-th rotate call. -/
def tokAt (t0 : Nat) (toks : Nat → Nat) : Nat → Nat
  | 0 => t0
  | k + 1 => toks k

/-- Ledger state of one lineage after `k` rotate calls, starting from the
row `create` makes at login (count 0, start `start`), every call made at
time `now` with fresh value `toks k`. -/
def rotN (cfg : LedgerConfig) (uid start now t0 : Nat) (toks : Nat → Nat) : Nat → Ledger
  | 0 => [⟨t0, uid, 0, start, false⟩]
  | k + 1 =>
    (rotate cfg (rotN cfg uid start now t0 toks k) (tokAt t0 toks k) (toks k) now).2

/-! ### Token Issuer and Session Manager -/

/-- Modelled from the spec: `AccessClaims` — subject id, role list,
superadmin flag, issued-at, expiry; embedded signed, never mutated
(spec section 3). -/
structure AccessClaims where
  sub : Nat
  roles : List Nat
  isAdmin : Bool
  iat : Nat
  exp : Nat
deriving DecidableEq

/-- Model of the opaque signature MAC over the claims under `key`. -/
def sigOf (key : Nat) (c : AccessClaims) : Nat :=
  key + 2 * c.sub + 3 * c.exp + 5 * c.iat

/-- A signed access token: claims plus signature. -/
structure SignedToken where
  claims : AccessClaims
  sig : Nat
deriving DecidableEq

/-- Modelled from the spec: `mint_access(user)` embeds subject id, role
list, superadmin flag and the fixed expiry `now + expiresIn`
(spec section 4.1); the role data is read fresh from the Credential
Store maps `rolesOf` / `adminOf`. -/
def mint_access (key expiresIn : Nat) (rolesOf : Nat → List Nat) (adminOf : Nat → Bool)
    (uid now : Nat) : SignedToken :=
  let c : AccessClaims := ⟨uid, rolesOf uid, adminOf uid, now, now + expiresIn⟩
  ⟨c, sigOf key c⟩

/-- Failure kinds of `authenticate` (spec section 4.3). -/
inductive AuthError
  | MalformedToken
  | SignatureInvalid
  | Expired
deriving DecidableEq

/-- Modelled from the spec: `authenticate(access_token)` verifies
signature and expiry only, touching no storage; a token that does not
parse is `MalformedToken` (spec section 4.3). -/
def authenticate (key now : Nat) (tok : Option SignedToken) : Except AuthError AccessClaims :=
  match tok with
  | none => .error .MalformedToken
  | some t =>
    if t.sig ≠ sigOf key t.claims then .error .SignatureInvalid
    else if t.claims.exp < now then .error .Expired
    else .ok t.claims

/-- The `{access_token, refresh_token}` pair of the inbound interface
(spec section 6). -/
structure TokenPair where
  access_token : SignedToken
  refresh_token : Nat
deriving DecidableEq

/-- Failure kinds surfaced by the Session Manager. -/
inductive SessionError
  | InvalidCredentials
  | ledger (e : LedgerError)
deriving DecidableEq

/-- Modelled from the spec: a Credential Store user row — identity,
password hash, active flag (spec section 3). -/
structure UserRec where
  uid : Nat
  email : String
  password_hash : String
  active : Bool
deriving DecidableEq

/-- Model of the one-way password hash. -/
def hashPw (p : String) : String := "h#" ++ p

/-- The credentials of `POST login`. -/
structure Credentials where
  email : String
  password : String
deriving DecidableEq

/-- Look a user up by identity among the active ones. -/
def findUser (users : List UserRec) (email : String) : Option UserRec :=
  users.find? (fun u => u.email == email && u.active)

/-- Modelled from the spec: `login(credentials) -> {access, refresh}` —
verify the password hash (`InvalidCredentials` on failure), then
Refresh Ledger `create` plus `mint_access`/`mint_refresh`; `tokR` is the
freshly minted opaque refresh value (spec sections 4.3 and 6). -/
def login (users : List UserRec) (key expiresIn : Nat)
    (rolesOf : Nat → List Nat) (adminOf : Nat → Bool)
    (st : Ledger) (creds : Credentials) (tokR now : Nat) :
    Except SessionError TokenPair × Ledger :=
  match findUser users creds.email with
  | none => (.error .InvalidCredentials, st)
  | some u =>
    if hashPw creds.password == u.password_hash then
      let created := ledgerCreate st u.uid tokR now
      (.ok ⟨mint_access key expiresIn rolesOf adminOf u.uid now, created.1.token⟩, created.2)
    else (.error .InvalidCredentials, st)

/-- Modelled from the spec: `refresh(old_refresh_token)` delegates to the
ledger's `rotate` and on success mints a fresh access token for the same
user, re-reading roles from the Credential Store (spec section 4.3). -/
def refreshOp (key expiresIn : Nat) (rolesOf : Nat → List Nat) (adminOf : Nat → Bool)
    (cfg : LedgerConfig) (st : Ledger) (old newTok now : Nat) :
    Except SessionError TokenPair × Ledger :=
  match rotate cfg st old newTok now with
  | (.ok s, st') =>
    (.ok ⟨mint_access key expiresIn rolesOf adminOf s.user_id now, s.token⟩, st')
  | (.error e, st') => (.error (.ledger e), st')

/-- Modelled from the spec: `POST logout {refresh_token} -> 204` — calls
the ledger's `revoke` and answers 204 (spec sections 4.3 and 6). -/
def logoutRoute (st : Ledger) (t : Nat) : Nat × Ledger :=
  let r := ledgerRevoke st t
  (204, r.2)

/-! ### Authorization Engine and Request Gate -/

/-- Decision of the Authorization Engine. -/
inductive AzDecision
  | allow
  | forbidden
deriving DecidableEq

/-- A target resource carrying its `created_by` attribute. -/
structure Resource where
  created_by : Nat
deriving DecidableEq

/-- Modelled from the spec: a Permission Grant `(role, module,
permission)` triple (spec section 3). -/
structure Grant where
  role : Nat
  module : Nat
  permission : Nat
deriving DecidableEq

/-- Modelled from the spec: the ownership / one-hop delegation check of
rule 2 (spec section 4.4): the subject created the resource, or the
creator is a delegated sub-user whose parent is the subject. -/
def ownerCheck (claims : AccessClaims) (target : Option Resource)
    (parentOf : Nat → Option Nat) : Bool :=
  match target with
  | none => false
  | some r => r.created_by == claims.sub || parentOf r.created_by == some claims.sub

/-- Modelled from the spec: the permission check of rule 3 (spec
section 4.4): some role of the claims holds a grant matching the
requested `(module, permission)`. -/
def permCheck (claims : AccessClaims) (act : Nat × Nat) (grants : List Grant) : Bool :=
  claims.roles.any fun rid =>
    grants.any fun g => g.role == rid && g.module == act.1 && g.permission == act.2

/-- Modelled from the spec: the Authorization Engine evaluates, in order:
superadmin flag, ownership/delegation, permission grant, otherwise
`Forbidden` (spec section 4.4). -/
def authorizeAction (claims : AccessClaims) (act : Nat × Nat)
    (target : Option Resource) (parentOf : Nat → Option Nat)
    (grants : List Grant) : AzDecision :=
  if claims.isAdmin then .allow
  else if ownerCheck claims target parentOf then .allow
  else if permCheck claims act grants then .allow
  else .forbidden

/-- An inbound protected request: its Authorization-style header. -/
structure HttpRequest where
  authHeader : Option String
deriving DecidableEq

/-- Extract the bearer value from the header. -/
def extractBearer (req : HttpRequest) : Option String :=
  match req.authHeader with
  | none => none
  | some h => if h.startsWith "Bearer " then some (h.drop 7) else none

/-- Where the Request Gate hands a request: an error status, or the
business logic's own result. -/
inductive GateOutcome (α : Type)
  | response (status : Nat)
  | business (val : α)

/-- Modelled from the spec: the Request Gate's fixed middleware chain —
extract bearer token, `authenticate`, optional Authorization Engine
evaluation, then handoff; authentication failures short-circuit with a
401-equivalent and `Forbidden` with a 403-equivalent
(spec section 4.5). `decode` parses the wire form of the access token. -/
def requestGate {α : Type} (key now : Nat) (decode : String → Option SignedToken)
    (authz : Option (AccessClaims → AzDecision)) (handler : AccessClaims → α)
    (req : HttpRequest) : GateOutcome α :=
  match authenticate key now ((extractBearer req).bind decode) with
  | .error _ => .response 401
  | .ok claims =>
    match authz with
    | none => .business (handler claims)
    | some f =>
      match f claims with
      | .allow => .business (handler claims)
      | .forbidden => .response 403

/-! ## Theorems -/

/-- Marking a row revoked twice is the same as marking it once. -/
lemma revokeTok_idem (st : Ledger) (t : Nat) :
    revokeTok (revokeTok st t) t = revokeTok st t := by
  unfold revokeTok
  rw [List.map_map]
  apply List.map_congr_left
  intro s _
  by_cases h : s.token = t <;> simp [h]

/-- C6: logout is idempotent — for every token value, known, unknown or
already revoked, `revoke` returns success, and revoking twice leaves the
same result and state as revoking once. -/
theorem logout_idempotent_c6 : ∀ (st : Ledger) (t : Nat),
    (ledgerRevoke st t).1 = true ∧
    ledgerRevoke (ledgerRevoke st t).2 t = ledgerRevoke st t := by
  intro st t
  refine ⟨rfl, ?_⟩
  simp only [ledgerRevoke, revokeTok_idem]

/-- C7: a superadmin's claims are allowed unconditionally — rule 1 of the
Authorization Engine is evaluated first, overriding ownership,
delegation, permission grants and the `Forbidden` default. -/
theorem superadmin_allows_c7 (claims : AccessClaims) (act : Nat × Nat)
    (target : Option Resource) (parentOf : Nat → Option Nat) (grants : List Grant)
    (h : claims.isAdmin = true) :
    authorizeAction claims act target parentOf grants = .allow := by
  simp [authorizeAction, h]

/-- C7 witness: a superadmin who owns nothing, has no delegate and no
grant is still allowed. -/
theorem superadmin_allows_c7_witness :
    (AccessClaims.mk 1 [] true 0 10).isAdmin = true ∧
    authorizeAction ⟨1, [], true, 0, 10⟩ (1, 2) (some ⟨99⟩) (fun _ => none) [] = .allow :=
  ⟨rfl, superadmin_allows_c7 ⟨1, [], true, 0, 10⟩ (1, 2) (some ⟨99⟩) (fun _ => none) [] rfl⟩

/-- Inversion of a successful `rotate`: the old value was found live and
under both limits, and the result row carries the fresh value with the
count incremented, stored by the single conditional update. -/
lemma rotate_ok_inv (cfg : LedgerConfig) (st : Ledger) (old nt now : Nat)
    (s : RefreshSession) (h : (rotate cfg st old nt now).1 = .ok s) :
    ∃ s0, findSession st old = some s0 ∧ s0.revoked = false ∧
      s0.rotation_count + 1 ≤ cfg.MAX_REFRESH_COUNT ∧
      now - s0.session_start ≤ cfg.JWT_SESSION_MAX_AGE ∧
      s = { s0 with token := nt, rotation_count := s0.rotation_count + 1 } ∧
      (rotate cfg st old nt now).2 = replaceTok st old s := by
  unfold rotate at h
  split at h
  next hf => simp at h
  next s0 hf =>
    by_cases h1 : s0.revoked
    · simp [h1] at h
    by_cases h2 : cfg.MAX_REFRESH_COUNT < s0.rotation_count + 1
    · simp [h1, h2] at h
    by_cases h3 : cfg.JWT_SESSION_MAX_AGE < now - s0.session_start
    · simp [h1, h2, h3] at h
    simp [h1, h2, h3] at h
    have hrev : s0.revoked = false := by simpa using h1
    refine ⟨s0, hf, hrev, Nat.le_of_not_lt h2, Nat.le_of_not_lt h3,
      by rw [hrev]; exact h.symm, ?_⟩
    unfold rotate
    rw [hf]
    simp [h1, h2, h3, h]

/-- C4: the inbound session interface — `POST login` answers a
`{access_token, refresh_token}` pair built from the found user's fresh
mint, `POST refresh` answers a pair holding the rotated fresh value and
a newly minted access token for the session's user, and `POST logout`
answers 204. -/
theorem session_endpoints_c4 (users : List UserRec) (key expiresIn : Nat)
    (rolesOf : Nat → List Nat) (adminOf : Nat → Bool) (cfg : LedgerConfig)
    (st : Ledger) (creds : Credentials) (tokR now old newTok t : Nat) :
    (∀ p, (login users key expiresIn rolesOf adminOf st creds tokR now).1 = .ok p →
        p.refresh_token = tokR ∧
        ∃ u, findUser users creds.email = some u ∧
          p.access_token = mint_access key expiresIn rolesOf adminOf u.uid now) ∧
    (∀ p, (refreshOp key expiresIn rolesOf adminOf cfg st old newTok now).1 = .ok p →
        p.refresh_token = newTok ∧
        ∃ s, (rotate cfg st old newTok now).1 = .ok s ∧ s.token = newTok ∧
          p.access_token = mint_access key expiresIn rolesOf adminOf s.user_id now) ∧
    (logoutRoute st t).1 = 204 := by
  refine ⟨?_, ?_, rfl⟩
  · intro p hp
    unfold login at hp
    split at hp
    next hf => simp at hp
    next u hf =>
      by_cases hpw : hashPw creds.password == u.password_hash
      · simp [hpw] at hp
        subst hp
        exact ⟨rfl, u, hf, rfl⟩
      · simp [hpw] at hp
  · intro p hp
    unfold refreshOp at hp
    split at hp
    next s st' heq =>
      simp at hp
      have h1 : (rotate cfg st old newTok now).1 = .ok s := by rw [heq]
      have htok : s.token = newTok := by
        obtain ⟨s0, -, -, -, -, hs, -⟩ := rotate_ok_inv cfg st old newTok now s h1
        rw [hs]
      subst hp
      exact ⟨htok, s, h1, htok, rfl⟩
    next e st' heq => simp at hp

/-- C5: the Request Gate runs extraction, then `authenticate`, then the
optional Authorization Engine, in that order: any authentication failure
short-circuits to 401 and a `forbidden` evaluation to 403, and the
business logic is reached only when authentication succeeded and the
engine, when present, allowed. -/
theorem request_gate_c5 (α : Type) (key now : Nat) (decode : String → Option SignedToken)
    (authz : Option (AccessClaims → AzDecision)) (handler : AccessClaims → α)
    (req : HttpRequest) :
    (∀ e, authenticate key now ((extractBearer req).bind decode) = .error e →
        requestGate key now decode authz handler req = .response 401) ∧
    (∀ claims f, authenticate key now ((extractBearer req).bind decode) = .ok claims →
        authz = some f → f claims = .forbidden →
        requestGate key now decode authz handler req = .response 403) ∧
    (∀ r, requestGate key now decode authz handler req = .business r →
        ∃ claims, authenticate key now ((extractBearer req).bind decode) = .ok claims ∧
          r = handler claims ∧ ∀ f, authz = some f → f claims = .allow) := by
  refine ⟨?_, ?_, ?_⟩
  · intro e he
    simp [requestGate, he]
  · intro claims f hc ha hf
    simp [requestGate, hc, ha, hf]
  · intro r hr
    unfold requestGate at hr
    split at hr
    next e heq => simp at hr
    next claims heq =>
      refine ⟨claims, heq, ?_⟩
      cases authz with
      | none =>
        simp at hr
        exact ⟨hr.symm, by intro f h; cases h⟩
      | some f =>
        cases hfc : f claims <;> simp [hfc] at hr
        exact ⟨hr.symm, by intro g hg; cases hg; exact hfc⟩

/-- C8: `POST /modelo/prediccion` — when any of the six body fields is
undefined the handler answers 400 listing the required fields and never
spawns the Python process; with all six present but `model.pkl` missing
it answers 404 and never spawns. -/
theorem prediccion_validate_c8 (b : PrediccionBody) (modelExists : Bool) :
    ((b.latitud = none ∨ b.longitud = none ∨ b.hora = none ∨ b.dia_semana = none ∨
        b.mes = none ∨ b.tipo_delito = none) →
      prediccionHandler b modelExists = .status400 camposRequeridos ∧
      ∀ inp, prediccionHandler b modelExists ≠ .spawned inp) ∧
    ((b.latitud ≠ none ∧ b.longitud ≠ none ∧ b.hora ≠ none ∧ b.dia_semana ≠ none ∧
        b.mes ≠ none ∧ b.tipo_delito ≠ none ∧ modelExists = false) →
      prediccionHandler b modelExists = .status404 ∧
      ∀ inp, prediccionHandler b modelExists ≠ .spawned inp) := by
  obtain ⟨la, lo, h, d, m, t⟩ := b
  cases la <;> cases lo <;> cases h <;> cases d <;> cases m <;> cases t <;>
    cases modelExists <;> simp [prediccionHandler]

/-- C3: the prediction round trip follows the fixed six-field schema —
the call succeeds exactly when the model exists and all six request
fields are present, the opaque service is invoked on exactly those six
converted fields, and the forwarded response is the service's, carrying
its `risk_level`. -/
theorem prediccion_schema_c3 (b : PrediccionBody) (modelExists : Bool)
    (service : InputData → PrediccionServiceResponse) (r : PrediccionServiceResponse) :
    (prediccionRoute b modelExists service = .ok r ↔
      modelExists = true ∧
      ∃ la lo h d m t, b.latitud = some la ∧ b.longitud = some lo ∧ b.hora = some h ∧
        b.dia_semana = some d ∧ b.mes = some m ∧ b.tipo_delito = some t ∧
        r = service ⟨la, lo, jsParseIntQ h, jsParseIntQ d, jsParseIntQ m, jsParseIntQ t⟩) ∧
    (prediccionRoute b modelExists service = .ok r →
      ∃ inp, r.risk_level = (service inp).risk_level) := by
  obtain ⟨la, lo, h, d, m, t⟩ := b
  constructor
  · cases la <;> cases lo <;> cases h <;> cases d <;> cases m <;> cases t <;>
      cases modelExists <;>
      simp [prediccionRoute, prediccionHandler, eq_comm]
  · intro hok
    unfold prediccionRoute at hok
    cases hh : prediccionHandler ⟨la, lo, h, d, m, t⟩ modelExists with
    | status400 req => rw [hh] at hok; simp at hok
    | status404 => rw [hh] at hok; simp at hok
    | spawned inp =>
      rw [hh] at hok
      simp at hok
      exact ⟨inp, by rw [← hok]⟩

/-- After the conditional update replaced the row keyed by `old` with a
row carrying a different token value, no lookup of `old` succeeds. -/
lemma findSession_replaceTok_ne (st : Ledger) (old : Nat) (s' : RefreshSession)
    (h : s'.token ≠ old) : findSession (replaceTok st old s') old = none := by
  unfold findSession replaceTok
  rw [List.find?_eq_none]
  intro x hx
  rw [List.mem_map] at hx
  obtain ⟨y, -, hxy⟩ := hx
  by_cases hyt : y.token = old
  · rw [← hxy]
    simp [hyt, h]
  · rw [← hxy]
    simp [hyt]

/-- A token value no lookup finds makes `rotate` fail with
`TokenNotFound`, state untouched. -/
lemma rotate_not_found (cfg : LedgerConfig) (st : Ledger) (t nt now2 : Nat)
    (h : findSession st t = none) :
    rotate cfg st t nt now2 = (.error .TokenNotFound, st) := by
  simp [rotate, h]

/-- A token value no lookup finds does not validate. -/
lemma find_active_none (st : Ledger) (t : Nat) (h : findSession st t = none) :
    find_active st t = none := by
  simp [find_active, h]

/-- C1: a successful `rotate` invalidates the old token value — a second
`rotate` with the same old value fails with `TokenNotFound`, and the old
value no longer passes `find_active`. -/
theorem rotate_invalidates_old_c1 (cfg : LedgerConfig) (st : Ledger)
    (old newTok now nt2 now2 : Nat) (s' : RefreshSession)
    (hfresh : newTok ≠ old)
    (hok : (rotate cfg st old newTok now).1 = .ok s') :
    (rotate cfg (rotate cfg st old newTok now).2 old nt2 now2).1 = .error .TokenNotFound ∧
    find_active (rotate cfg st old newTok now).2 old = none := by
  obtain ⟨s0, hf, -, -, -, hs, hst⟩ := rotate_ok_inv cfg st old newTok now s' hok
  have htok : s'.token ≠ old := by rw [hs]; simpa using hfresh
  have hnone : findSession (rotate cfg st old newTok now).2 old = none := by
    rw [hst]; exact findSession_replaceTok_ne st old s' htok
  exact ⟨by rw [rotate_not_found cfg _ old nt2 now2 hnone],
    find_active_none _ old hnone⟩

/-- C1 witness: rotating the single live token 5 to the fresh value 7,
then retrying with 5, fails with `TokenNotFound` and 5 never validates. -/
theorem rotate_invalidates_old_c1_witness :
    ((7 : Nat) ≠ 5) ∧
    ((rotate ⟨10, 100⟩ [⟨5, 1, 0, 0, false⟩] 5 7 0).1 = .ok ⟨7, 1, 1, 0, false⟩) ∧
    ((rotate ⟨10, 100⟩ (rotate ⟨10, 100⟩ [⟨5, 1, 0, 0, false⟩] 5 7 0).2 5 9 0).1
        = .error .TokenNotFound) ∧
    (find_active (rotate ⟨10, 100⟩ [⟨5, 1, 0, 0, false⟩] 5 7 0).2 5 = none) :=
  ⟨by decide, by rfl,
    rotate_invalidates_old_c1 ⟨10, 100⟩ [⟨5, 1, 0, 0, false⟩] 5 7 0 9 0
      ⟨7, 1, 1, 0, false⟩ (by decide) (by rfl)⟩

/-- Ledger state after `k` in-limit rotations: the single row holds the
`k`-th token value, count `k`, not revoked. -/
lemma rotN_le_max (cfg : LedgerConfig) (uid start now t0 : Nat) (toks : Nat → Nat)
    (hage : now - start ≤ cfg.JWT_SESSION_MAX_AGE) :
    ∀ k, k ≤ cfg.MAX_REFRESH_COUNT →
      rotN cfg uid start now t0 toks k = [⟨tokAt t0 toks k, uid, k, start, false⟩] := by
  intro k
  induction k with
  | zero => intro _; rfl
  | succ k ih =>
    intro hk
    have hnk : ¬ (cfg.MAX_REFRESH_COUNT < k + 1) := Nat.not_lt.mpr hk
    have hna : ¬ (cfg.JWT_SESSION_MAX_AGE < now - start) := Nat.not_lt.mpr hage
    rw [rotN, ih (Nat.le_of_succ_le hk)]
    simp [rotate, findSession, replaceTok, tokAt, hnk, hna]

/-- A dead lineage (single revoked row) makes every rotate call fail with
`TokenNotFound` and leaves the state untouched. -/
lemma rotate_revoked_dead (cfg : LedgerConfig) (tk uid cnt start : Nat) :
    ∀ t nt now2, rotate cfg [⟨tk, uid, cnt, start, true⟩] t nt now2
      = (.error .TokenNotFound, [⟨tk, uid, cnt, start, true⟩]) := by
  intro t nt now2
  by_cases h : tk = t <;> simp [rotate, findSession, h]

/-- C2: the rotation-count invariant and limit behavior — starting from a
fresh session (count 0), every row ever reachable keeps
`rotation_count ≤ MAX_REFRESH_COUNT`; each of the first
`MAX_REFRESH_COUNT` rotate calls succeeds with the count incremented by
one, the `(MAX_REFRESH_COUNT+1)`-th fails with `RotationLimitExceeded`
and revokes the row, and from then on every rotate call on the lineage
fails with `TokenNotFound`, leaving the state unchanged. -/
theorem rotation_limit_c2 (cfg : LedgerConfig) (uid start now t0 : Nat)
    (toks : Nat → Nat) (hage : now - start ≤ cfg.JWT_SESSION_MAX_AGE) :
    (∀ k, k ≤ cfg.MAX_REFRESH_COUNT →
        rotN cfg uid start now t0 toks k = [⟨tokAt t0 toks k, uid, k, start, false⟩]) ∧
    (∀ k, k < cfg.MAX_REFRESH_COUNT →
        (rotate cfg (rotN cfg uid start now t0 toks k) (tokAt t0 toks k) (toks k) now).1
          = .ok ⟨toks k, uid, k + 1, start, false⟩) ∧
    ((rotate cfg (rotN cfg uid start now t0 toks cfg.MAX_REFRESH_COUNT)
        (tokAt t0 toks cfg.MAX_REFRESH_COUNT) (toks cfg.MAX_REFRESH_COUNT) now).1
      = .error .RotationLimitExceeded) ∧
    (rotN cfg uid start now t0 toks (cfg.MAX_REFRESH_COUNT + 1)
      = [⟨tokAt t0 toks cfg.MAX_REFRESH_COUNT, uid, cfg.MAX_REFRESH_COUNT, start, true⟩]) ∧
    (∀ t nt now2,
        rotate cfg (rotN cfg uid start now t0 toks (cfg.MAX_REFRESH_COUNT + 1)) t nt now2
          = (.error .TokenNotFound, rotN cfg uid start now t0 toks (cfg.MAX_REFRESH_COUNT + 1))) ∧
    (∀ k, ∀ s ∈ rotN cfg uid start now t0 toks k,
        s.rotation_count ≤ cfg.MAX_REFRESH_COUNT) := by
  have ha := rotN_le_max cfg uid start now t0 toks hage
  have hna : ¬ (cfg.JWT_SESSION_MAX_AGE < now - start) := Nat.not_lt.mpr hage
  have hstep : ∀ k, k < cfg.MAX_REFRESH_COUNT →
      (rotate cfg (rotN cfg uid start now t0 toks k) (tokAt t0 toks k) (toks k) now).1
        = .ok ⟨toks k, uid, k + 1, start, false⟩ := by
    intro k hk
    have hnk : ¬ (cfg.MAX_REFRESH_COUNT < k + 1) := Nat.not_lt.mpr hk
    rw [ha k (Nat.le_of_lt hk)]
    simp [rotate, findSession, hnk, hna]
  have hlimit : rotate cfg (rotN cfg uid start now t0 toks cfg.MAX_REFRESH_COUNT)
      (tokAt t0 toks cfg.MAX_REFRESH_COUNT) (toks cfg.MAX_REFRESH_COUNT) now
      = (.error .RotationLimitExceeded,
         [⟨tokAt t0 toks cfg.MAX_REFRESH_COUNT, uid, cfg.MAX_REFRESH_COUNT, start, true⟩]) := by
    rw [ha cfg.MAX_REFRESH_COUNT (Nat.le_refl _)]
    simp [rotate, findSession, revokeTok, Nat.lt_succ_self]
  have hdead : rotN cfg uid start now t0 toks (cfg.MAX_REFRESH_COUNT + 1)
      = [⟨tokAt t0 toks cfg.MAX_REFRESH_COUNT, uid, cfg.MAX_REFRESH_COUNT, start, true⟩] := by
    rw [rotN, hlimit]
  refine ⟨ha, hstep, by rw [hlimit], hdead, ?_, ?_⟩
  · intro t nt now2
    rw [hdead]
    exact rotate_revoked_dead cfg _ uid cfg.MAX_REFRESH_COUNT start t nt now2
  · intro k s hs
    rcases Nat.lt_or_ge k (cfg.MAX_REFRESH_COUNT + 1) with hk | hk
    · rw [ha k (Nat.lt_succ_iff.mp hk)] at hs
      rw [List.mem_singleton] at hs
      rw [hs]
      exact Nat.lt_succ_iff.mp hk
    · obtain ⟨j, rfl⟩ : ∃ j, k = cfg.MAX_REFRESH_COUNT + 1 + j :=
        ⟨k - (cfg.MAX_REFRESH_COUNT + 1), by omega⟩
      have hstuck : ∀ j, rotN cfg uid start now t0 toks (cfg.MAX_REFRESH_COUNT + 1 + j)
          = rotN cfg uid start now t0 toks (cfg.MAX_REFRESH_COUNT + 1) := by
        intro j
        induction j with
        | zero => rfl
        | succ j ihj =>
          have : cfg.MAX_REFRESH_COUNT + 1 + (j + 1)
              = (cfg.MAX_REFRESH_COUNT + 1 + j) + 1 := by omega
          rw [this, rotN, ihj, hdead, rotate_revoked_dead, ← hdead]
      rw [hstuck j, hdead] at hs
      rw [List.mem_singleton] at hs
      rw [hs]

/-- C2 witness: with `MAX_REFRESH_COUNT = 2` and `JWT_SESSION_MAX_AGE =
100`, a lineage started at time 0 rotates twice, fails the third time
with `RotationLimitExceeded`, and is unusable from then on. -/
theorem rotation_limit_c2_witness :
    ((0 : Nat) - 0 ≤ 100) ∧
    ((∀ k, k ≤ 2 → rotN ⟨2, 100⟩ 1 0 0 0 (fun j => j + 1) k
        = [⟨tokAt 0 (fun j => j + 1) k, 1, k, 0, false⟩]) ∧
     (∀ k, k < 2 →
        (rotate ⟨2, 100⟩ (rotN ⟨2, 100⟩ 1 0 0 0 (fun j => j + 1) k)
            (tokAt 0 (fun j => j + 1) k) (k + 1) 0).1
          = .ok ⟨k + 1, 1, k + 1, 0, false⟩) ∧
     ((rotate ⟨2, 100⟩ (rotN ⟨2, 100⟩ 1 0 0 0 (fun j => j + 1) 2)
          (tokAt 0 (fun j => j + 1) 2) 3 0).1 = .error .RotationLimitExceeded) ∧
     (rotN ⟨2, 100⟩ 1 0 0 0 (fun j => j + 1) 3
        = [⟨tokAt 0 (fun j => j + 1) 2, 1, 2, 0, true⟩]) ∧
     (∀ t nt now2, rotate ⟨2, 100⟩ (rotN ⟨2, 100⟩ 1 0 0 0 (fun j => j + 1) 3) t nt now2
        = (.error .TokenNotFound, rotN ⟨2, 100⟩ 1 0 0 0 (fun j => j + 1) 3)) ∧
     (∀ k, ∀ s ∈ rotN ⟨2, 100⟩ 1 0 0 0 (fun j => j + 1) k, s.rotation_count ≤ 2)) :=
  ⟨by decide, rotation_limit_c2 ⟨2, 100⟩ 1 0 0 0 (fun j => j + 1) (by decide)⟩

/-- Bounds on the 6-decimal rounding: when `x * 10^6` lies in `[a, b)`,
the rounded value lies in `[a/10^6, b/10^6]`. -/
lemma jsToFixed6_mem (a b : ℤ) (x : ℚ)
    (h1 : (a : ℚ) ≤ x * 1000000) (h2 : x * 1000000 < (b : ℚ)) :
    (a : ℚ) / 1000000 ≤ jsToFixed6 x ∧ jsToFixed6 x ≤ (b : ℚ) / 1000000 := by
  have hn1 : a ≤ Int.floor (x * 1000000 + 1/2) := Int.le_floor.mpr (by linarith)
  have hn2 : Int.floor (x * 1000000 + 1/2) ≤ b := by
    have h : Int.floor (x * 1000000 + 1/2) < b + 1 :=
      Int.floor_lt.mpr (by push_cast; linarith)
    omega
  unfold jsToFixed6
  constructor
  · exact (div_le_div_iff_of_pos_right (by norm_num : (0:ℚ) < 1000000)).mpr
      (by exact_mod_cast hn1)
  · exact (div_le_div_iff_of_pos_right (by norm_num : (0:ℚ) < 1000000)).mpr
      (by exact_mod_cast hn2)

/-- Per-record ranges of the example-data generator. -/
lemma genEjemplo_ranges (rnd : Nat → ℚ) (hr : ∀ i, 0 ≤ rnd i ∧ rnd i < 1) (i : Nat) :
    -27/2 ≤ (genEjemplo rnd i).latitud ∧ (genEjemplo rnd i).latitud ≤ -133/10 ∧
    -72 ≤ (genEjemplo rnd i).longitud ∧ (genEjemplo rnd i).longitud ≤ -719/10 ∧
    0 ≤ (genEjemplo rnd i).hora ∧ (genEjemplo rnd i).hora ≤ 23 ∧
    0 ≤ (genEjemplo rnd i).dia_semana ∧ (genEjemplo rnd i).dia_semana ≤ 6 ∧
    1 ≤ (genEjemplo rnd i).mes ∧ (genEjemplo rnd i).mes ≤ 12 ∧
    0 ≤ (genEjemplo rnd i).tipo_delito ∧ (genEjemplo rnd i).tipo_delito ≤ 4 := by
  obtain ⟨h0a, h0b⟩ := hr (6*i)
  obtain ⟨h1a, h1b⟩ := hr (6*i+1)
  obtain ⟨h2a, h2b⟩ := hr (6*i+2)
  obtain ⟨h3a, h3b⟩ := hr (6*i+3)
  obtain ⟨h4a, h4b⟩ := hr (6*i+4)
  obtain ⟨h5a, h5b⟩ := hr (6*i+5)
  have hlat := jsToFixed6_mem (-13500000) (-13300000) (rnd (6*i) * (2/10) - 27/2)
    (by push_cast; nlinarith) (by push_cast; nlinarith)
  have hlon := jsToFixed6_mem (-72000000) (-71900000) (rnd (6*i+1) * (1/10) - 72)
    (by push_cast; nlinarith) (by push_cast; nlinarith)
  rw [show ((-13500000 : ℤ) : ℚ) / 1000000 = -27/2 by norm_num,
      show ((-13300000 : ℤ) : ℚ) / 1000000 = -133/10 by norm_num] at hlat
  rw [show ((-72000000 : ℤ) : ℚ) / 1000000 = -72 by norm_num,
      show ((-71900000 : ℤ) : ℚ) / 1000000 = -719/10 by norm_num] at hlon
  simp only [genEjemplo]
  refine ⟨hlat.1, hlat.2, hlon.1, hlon.2, ?_, ?_, ?_, ?_, ?_, ?_, ?_, ?_⟩
  · exact Int.le_floor.mpr (by push_cast; nlinarith)
  · have h : Int.floor (rnd (6*i+2) * 24) < 24 := Int.floor_lt.mpr (by push_cast; nlinarith)
    omega
  · exact Int.le_floor.mpr (by push_cast; nlinarith)
  · have h : Int.floor (rnd (6*i+3) * 7) < 7 := Int.floor_lt.mpr (by push_cast; nlinarith)
    omega
  · have h : (0 : ℤ) ≤ Int.floor (rnd (6*i+4) * 12) :=
      Int.le_floor.mpr (by push_cast; nlinarith)
    omega
  · have h : Int.floor (rnd (6*i+4) * 12) < 12 := Int.floor_lt.mpr (by push_cast; nlinarith)
    omega
  · exact Int.le_floor.mpr (by push_cast; nlinarith)
  · have h : Int.floor (rnd (6*i+5) * 5) < 5 := Int.floor_lt.mpr (by push_cast; nlinarith)
    omega

/-- C9: every `GET /modelo/datos-ejemplo` reply has `cantidad` equal to
the length of `datos`; every generated record lies in the documented
ranges (`latitud ∈ [-13.5, -13.3]`, `longitud ∈ [-72, -71.9]`,
`hora ∈ [0,23]`, `dia_semana ∈ [0,6]`, `mes ∈ [1,12]`,
`tipo_delito ∈ [0,4]`); and a missing, non-numeric or zero `n` query
yields exactly 10 records. -/
theorem datos_ejemplo_c9 (rnd : Nat → ℚ) (nq : Option ℤ)
    (hr : ∀ i, 0 ≤ rnd i ∧ rnd i < 1) :
    ((datosEjemplo rnd nq).cantidad = (datosEjemplo rnd nq).datos.length) ∧
    (∀ r ∈ (datosEjemplo rnd nq).datos,
        -27/2 ≤ r.latitud ∧ r.latitud ≤ -133/10 ∧
        -72 ≤ r.longitud ∧ r.longitud ≤ -719/10 ∧
        0 ≤ r.hora ∧ r.hora ≤ 23 ∧
        0 ≤ r.dia_semana ∧ r.dia_semana ≤ 6 ∧
        1 ≤ r.mes ∧ r.mes ≤ 12 ∧
        0 ≤ r.tipo_delito ∧ r.tipo_delito ≤ 4) ∧
    ((nq = none ∨ nq = some 0) → (datosEjemplo rnd nq).datos.length = 10) := by
  refine ⟨rfl, ?_, ?_⟩
  · intro r hrm
    unfold datosEjemplo at hrm
    simp only [List.mem_map, List.mem_range] at hrm
    obtain ⟨i, -, rfl⟩ := hrm
    exact genEjemplo_ranges rnd hr i
  · rintro (rfl | rfl) <;> simp [datosEjemplo, effectiveN]

/-- The constant stream drawing 1/2 every time, a concrete stand-in for
`Math.random`. -/
def halfStream : Nat → ℚ := fun _ => 1/2

/-- C9 witness: the reply built from the constant stream 1/2 with the
query absent. -/
theorem datos_ejemplo_c9_witness :
    (∀ i, 0 ≤ halfStream i ∧ halfStream i < 1) ∧
    (((datosEjemplo halfStream none).cantidad
        = (datosEjemplo halfStream none).datos.length) ∧
     (∀ r ∈ (datosEjemplo halfStream none).datos,
        -27/2 ≤ r.latitud ∧ r.latitud ≤ -133/10 ∧
        -72 ≤ r.longitud ∧ r.longitud ≤ -719/10 ∧
        0 ≤ r.hora ∧ r.hora ≤ 23 ∧
        0 ≤ r.dia_semana ∧ r.dia_semana ≤ 6 ∧
        1 ≤ r.mes ∧ r.mes ≤ 12 ∧
        0 ≤ r.tipo_delito ∧ r.tipo_delito ≤ 4) ∧
     ((none = (none : Option ℤ) ∨ (none : Option ℤ) = some 0) →
        (datosEjemplo halfStream none).datos.length = 10)) :=
  ⟨fun i => by norm_num [halfStream],
   datos_ejemplo_c9 halfStream none (fun i => by norm_num [halfStream])⟩

/-- The anchored matcher succeeds exactly as the declarative
position-0 match predicate. -/
lemma matchCaptureAt_some_iff (s cap : List Char) :
    matchCaptureAt s = some cap ↔ accuracyMatchAt s 0 cap := by
  unfold matchCaptureAt accuracyMatchAt
  simp only [List.drop_zero, Nat.zero_add]
  by_cases hb : beginsWith litAccuracy s
  · rw [if_pos hb]
    by_cases hc : (s.drop litAccuracy.length).takeWhile isDigitDot ≠ [] ∧
        ((s.drop litAccuracy.length).dropWhile isDigitDot).head? = some '%'
    · rw [if_pos hc]
      constructor
      · intro h
        injection h with h
        exact ⟨hb, h.symm, h ▸ hc.1, hc.2⟩
      · rintro ⟨-, hcap, -, -⟩
        rw [hcap]
    · rw [if_neg hc]
      constructor
      · intro h
        cases h
      · rintro ⟨-, hcap, hne, hpct⟩
        exact absurd ⟨hcap ▸ hne, hpct⟩ hc
  · rw [if_neg hb]
    constructor
    · intro h
      cases h
    · rintro ⟨hb', -⟩
      exact absurd hb' hb

/-- Shifting the match predicate across a cons. -/
lemma accuracyMatchAt_cons (c : Char) (cs : List Char) (i : Nat) (cap : List Char) :
    accuracyMatchAt (c :: cs) (i + 1) cap ↔ accuracyMatchAt cs i cap := by
  unfold accuracyMatchAt
  have h2 : i + 1 + litAccuracy.length = (i + litAccuracy.length) + 1 := by omega
  rw [List.drop_succ_cons, h2, List.drop_succ_cons]

/-- The scan finds the leftmost match: a match at `i` with none earlier
is what `accuracyCapture` returns. -/
lemma accuracyCapture_eq_some (s : List Char) (i : Nat) (cap : List Char)
    (hm : accuracyMatchAt s i cap)
    (hmin : ∀ j c, j < i → ¬ accuracyMatchAt s j c) :
    accuracyCapture s = some cap := by
  induction s generalizing i with
  | nil =>
    exfalso
    have h := hm.1
    rw [List.drop_nil] at h
    exact absurd h (by decide)
  | cons c cs ih =>
    cases i with
    | zero =>
      unfold accuracyCapture
      rw [(matchCaptureAt_some_iff (c :: cs) cap).mpr hm]
    | succ i =>
      unfold accuracyCapture
      have h0 : matchCaptureAt (c :: cs) = none := by
        cases hmc : matchCaptureAt (c :: cs) with
        | none => rfl
        | some r =>
          exact absurd ((matchCaptureAt_some_iff _ _).mp hmc) (hmin 0 r (Nat.succ_pos i))
      rw [h0]
      exact ih i ((accuracyMatchAt_cons c cs i cap).mp hm)
        (fun j cc hj hacc =>
          hmin (j + 1) cc (Nat.succ_lt_succ hj) ((accuracyMatchAt_cons c cs j cc).mpr hacc))

/-- When no position matches, the scan returns nothing. -/
lemma accuracyCapture_eq_none (s : List Char)
    (hno : ∀ i cap, ¬ accuracyMatchAt s i cap) :
    accuracyCapture s = none := by
  induction s with
  | nil => rfl
  | cons c cs ih =>
    unfold accuracyCapture
    have h0 : matchCaptureAt (c :: cs) = none := by
      cases hmc : matchCaptureAt (c :: cs) with
      | none => rfl
      | some r => exact absurd ((matchCaptureAt_some_iff _ _).mp hmc) (hno 0 r)
    rw [h0]
    exact ih (fun i cap h => hno (i + 1) cap ((accuracyMatchAt_cons c cs i cap).mpr h))

/-- C10: `POST /modelo/entrenar` — when stderr is empty or mentions
`Precisión`, the reply is the 200 body whose `precision` is the
`parseFloat` of the capture of the leftmost regex match in stdout
(`none` when no position matches); when stderr is non-empty and does not
mention `Precisión`, the reply is 500 carrying that stderr. -/
theorem entrenar_precision_c10 (stdout stderr : List Char) :
    ((stderr = [] ∨ hasSub stderr precWord = true) →
      ∃ prec, entrenarRoute stdout stderr = .trained prec stdout ∧
        (∀ i cap, accuracyMatchAt stdout i cap →
          (∀ j c, j < i → ¬ accuracyMatchAt stdout j c) →
          prec = some (jsParseFloat cap)) ∧
        ((∀ i cap, ¬ accuracyMatchAt stdout i cap) → prec = none)) ∧
    ((stderr ≠ [] ∧ hasSub stderr precWord = false) →
      entrenarRoute stdout stderr = .errStderr stderr) := by
  constructor
  · intro hgood
    have hcond : ¬ (stderr ≠ [] ∧ hasSub stderr precWord = false) := by
      rcases hgood with h | h <;> simp [h]
    refine ⟨(accuracyCapture stdout).map jsParseFloat, ?_, ?_, ?_⟩
    · unfold entrenarRoute
      rw [if_neg hcond]
    · intro i cap hm hmin
      rw [accuracyCapture_eq_some stdout i cap hm hmin]
      rfl
    · intro hno
      rw [accuracyCapture_eq_none stdout hno]
      rfl
  · intro hbad
    unfold entrenarRoute
    rw [if_pos hbad]

end Tesis
